import Mathlib

/-!
Verification of the heuristic AI-voice classifier of
`src/utils/voice_detector.py` (`VoiceDetector._analyze_features`), shallowly
embedded over exact rationals.  Python floats are modelled by `ℚ`: every
constant of the source (weights 0.20 … 0.08, thresholds 25, 6.5, 0.012, …,
the prior 0.4/0.6, the bias 0.08 and the clamp bounds 0.55/0.95) is exactly
representable in binary-independent decimal form, and the claims under
scrutiny concern threshold comparisons and exact two-decimal values, where
the rational and the floating-point computation agree.
-/

namespace VoiceDetector

/-- The feature dictionary produced by `extract_audio_features`
(`src/utils/audio_processor.py`), restricted to the keys read by
`_analyze_features` plus the six pitch statistics named by the spec's
zero-pitch edge case.  In the source it is a dict; all keys below are always
present in a well-formed vector (the classifier reads them with
`features.get(key, 0)`, so a well-formed vector and the dict access agree). -/
structure FeatureVector where
  pitch_mean : ℚ
  pitch_std : ℚ
  pitch_range : ℚ
  pitch_max : ℚ
  pitch_min : ℚ
  pitch_cv : ℚ
  mfcc_std : List ℚ
  mfcc_delta_std : ℚ
  spectral_centroid_std : ℚ
  spectral_bandwidth_std : ℚ
  spectral_contrast_std : ℚ
  energy_std : ℚ
  energy_cv : ℚ
  zcr_std : ℚ
  spectral_rolloff_std : ℚ
deriving DecidableEq

/-- Well-formedness: the MFCC standard-deviation array has its fixed length
13 (the spec's data model; `librosa.feature.mfcc(..., n_mfcc=13)`). -/
def FeatureVector.Wf (fv : FeatureVector) : Prop :=
  fv.mfcc_std.length = 13

instance (fv : FeatureVector) : Decidable fv.Wf := by
  unfold FeatureVector.Wf; infer_instance

/-- The arithmetic mean of the MFCC std array,
`np.mean(features.get('mfcc_std', [0]))` in the source.  (On a well-formed vector the list has 13 entries; `ℚ`
division by a zero length would give 0 where numpy gives NaN, a case no
well-formed vector reaches.) -/
def mfccStdMean (fv : FeatureVector) : ℚ :=
  fv.mfcc_std.sum / fv.mfcc_std.length

/-- Row 1 AI test: `pitch_std < 25 or (pitch_cv > 0 and pitch_cv < 0.08)`. -/
def pitchAI (fv : FeatureVector) : Prop :=
  fv.pitch_std < 25 ∨ (0 < fv.pitch_cv ∧ fv.pitch_cv < 0.08)

/-- Row 1 HUMAN test (the `elif`): `pitch_std > 30 and pitch_range > 150`. -/
def pitchHuman (fv : FeatureVector) : Prop :=
  30 < fv.pitch_std ∧ 150 < fv.pitch_range

/-- Row 2 AI test: `mfcc_std_mean < 6.5`. -/
def mfccAI (fv : FeatureVector) : Prop := mfccStdMean fv < 6.5

/-- Row 2 HUMAN test (the `elif`): `mfcc_std_mean > 7`. -/
def mfccHuman (fv : FeatureVector) : Prop := 7 < mfccStdMean fv

/-- Row 3 AI test: `mfcc_delta_std < 4.0` (no HUMAN branch). -/
def mfccDeltaAI (fv : FeatureVector) : Prop := fv.mfcc_delta_std < 4

/-- Row 4 AI test: `spectral_centroid_std < 600`. -/
def centroidAI (fv : FeatureVector) : Prop := fv.spectral_centroid_std < 600

/-- Row 4 HUMAN test (the `elif`): `spectral_centroid_std > 800`. -/
def centroidHuman (fv : FeatureVector) : Prop := 800 < fv.spectral_centroid_std

/-- Row 5 AI test: `spectral_bandwidth_std < 450` (no HUMAN branch). -/
def bandwidthAI (fv : FeatureVector) : Prop := fv.spectral_bandwidth_std < 450

/-- Row 6 AI test: `energy_std < 0.012 or (energy_cv > 0 and energy_cv < 0.18)`. -/
def energyAI (fv : FeatureVector) : Prop :=
  fv.energy_std < 0.012 ∨ (0 < fv.energy_cv ∧ fv.energy_cv < 0.18)

/-- Row 6 HUMAN test (the `elif`): `energy_std > 0.015`. -/
def energyHuman (fv : FeatureVector) : Prop := 0.015 < fv.energy_std

/-- Row 7 AI test: `zcr_std < 0.012`. -/
def zcrAI (fv : FeatureVector) : Prop := fv.zcr_std < 0.012

/-- Row 7 HUMAN test (the `elif`): `zcr_std > 0.015`. -/
def zcrHuman (fv : FeatureVector) : Prop := 0.015 < fv.zcr_std

/-- Row 8 AI test: `spectral_rolloff_std < 600` (no HUMAN branch). -/
def rolloffAI (fv : FeatureVector) : Prop := fv.spectral_rolloff_std < 600

instance (fv : FeatureVector) : Decidable (pitchAI fv) := by
  unfold pitchAI; infer_instance
instance (fv : FeatureVector) : Decidable (pitchHuman fv) := by
  unfold pitchHuman; infer_instance
instance (fv : FeatureVector) : Decidable (mfccAI fv) := by
  unfold mfccAI; infer_instance
instance (fv : FeatureVector) : Decidable (mfccHuman fv) := by
  unfold mfccHuman; infer_instance
instance (fv : FeatureVector) : Decidable (mfccDeltaAI fv) := by
  unfold mfccDeltaAI; infer_instance
instance (fv : FeatureVector) : Decidable (centroidAI fv) := by
  unfold centroidAI; infer_instance
instance (fv : FeatureVector) : Decidable (centroidHuman fv) := by
  unfold centroidHuman; infer_instance
instance (fv : FeatureVector) : Decidable (bandwidthAI fv) := by
  unfold bandwidthAI; infer_instance
instance (fv : FeatureVector) : Decidable (energyAI fv) := by
  unfold energyAI; infer_instance
instance (fv : FeatureVector) : Decidable (energyHuman fv) := by
  unfold energyHuman; infer_instance
instance (fv : FeatureVector) : Decidable (zcrAI fv) := by
  unfold zcrAI; infer_instance
instance (fv : FeatureVector) : Decidable (zcrHuman fv) := by
  unfold zcrHuman; infer_instance
instance (fv : FeatureVector) : Decidable (rolloffAI fv) := by
  unfold rolloffAI; infer_instance

/-- The `ai_indicators` list built by `_analyze_features`: row order is the
append order of the source's `append` calls. -/
def aiIndicators (fv : FeatureVector) : List (String × ℚ) :=
  (if pitchAI fv then [("pitch_consistency", 0.20)] else []) ++
  (if mfccAI fv then [("mfcc_patterns", 0.18)] else []) ++
  (if mfccDeltaAI fv then [("mfcc_transitions", 0.12)] else []) ++
  (if centroidAI fv then [("spectral_consistency", 0.10)] else []) ++
  (if bandwidthAI fv then [("bandwidth_consistency", 0.08)] else []) ++
  (if energyAI fv then [("energy_consistency", 0.12)] else []) ++
  (if zcrAI fv then [("zcr_patterns", 0.08)] else []) ++
  (if rolloffAI fv then [("rolloff_consistency", 0.08)] else [])

/-- The `human_indicators` list: each HUMAN branch is the `elif` of its row's
AI test, so it fires only when the AI test fails. -/
def humanIndicators (fv : FeatureVector) : List (String × ℚ) :=
  (if ¬ pitchAI fv ∧ pitchHuman fv then [("pitch_variation", 0.15)] else []) ++
  (if ¬ mfccAI fv ∧ mfccHuman fv then [("mfcc_variation", 0.12)] else []) ++
  (if ¬ centroidAI fv ∧ centroidHuman fv then [("spectral_variation", 0.10)] else []) ++
  (if ¬ energyAI fv ∧ energyHuman fv then [("energy_variation", 0.10)] else []) ++
  (if ¬ zcrAI fv ∧ zcrHuman fv then [("zcr_variation", 0.08)] else [])

/-- The `reasons` list: one phrase per fired AI-side test, in row order. -/
def reasons (fv : FeatureVector) : List String :=
  (if pitchAI fv then ["unusually consistent pitch"] else []) ++
  (if mfccAI fv then ["atypical MFCC patterns"] else []) ++
  (if mfccDeltaAI fv then ["unnatural spectral transitions"] else []) ++
  (if centroidAI fv then ["limited spectral variation"] else []) ++
  (if energyAI fv then ["unnatural energy consistency"] else []) ++
  (if zcrAI fv then ["unnatural zero crossing patterns"] else [])

/-- The source's `ai_weight = sum(weight for _, weight in ai_indicators)`. -/
def aiWeight (fv : FeatureVector) : ℚ :=
  ((aiIndicators fv).map Prod.snd).sum

/-- The source's `human_weight = sum(weight for _, weight in human_indicators)`. -/
def humanWeight (fv : FeatureVector) : ℚ :=
  ((humanIndicators fv).map Prod.snd).sum

/-- The source's `total_weight = ai_weight + human_weight`. -/
def totalWeight (fv : FeatureVector) : ℚ := aiWeight fv + humanWeight fv

/-- The value of `ai_prob` after the normalisation step: `ai_weight / total_weight` when
`total_weight > 0`, else the default prior 0.4. -/
def aiProbRaw (fv : FeatureVector) : ℚ :=
  if 0 < totalWeight fv then aiWeight fv / totalWeight fv else 0.4

/-- The value of `human_prob` after the normalisation step: `human_weight / total_weight`
when `total_weight > 0`, else the default prior 0.6. -/
def humanProbRaw (fv : FeatureVector) : ℚ :=
  if 0 < totalWeight fv then humanWeight fv / totalWeight fv else 0.6

/-- The source's `indicator_count = len(ai_indicators) + len(human_indicators)`. -/
def indicatorCount (fv : FeatureVector) : ℕ :=
  (aiIndicators fv).length + (humanIndicators fv).length

/-- The source's `confidence_boost = min(0.2, indicator_count * 0.03)`. -/
def confidenceBoost (fv : FeatureVector) : ℚ :=
  min 0.2 ((indicatorCount fv : ℚ) * 0.03)

/-- The conservatism-bias step: when `ai_weight > 0 and total_weight > 0`,
`ai_prob = min(1.0, ai_prob + 0.08)` followed by the `norm > 0`-guarded
renormalisation; otherwise the probabilities pass through unchanged. -/
def biasedPair (fv : FeatureVector) : ℚ × ℚ :=
  if 0 < aiWeight fv ∧ 0 < totalWeight fv then
    let a := min 1 (aiProbRaw fv + 0.08)
    let norm := a + humanProbRaw fv
    if 0 < norm then (a / norm, humanProbRaw fv / norm)
    else (a, humanProbRaw fv)
  else (aiProbRaw fv, humanProbRaw fv)

/-- Final `ai_prob` entering the decision step. -/
def aiProb (fv : FeatureVector) : ℚ := (biasedPair fv).1

/-- Final `human_prob` entering the decision step. -/
def humanProb (fv : FeatureVector) : ℚ := (biasedPair fv).2

/-- The source's `classification`: `"AI_GENERATED"` when `ai_prob > human_prob`,
else `"HUMAN"`. -/
def classification (fv : FeatureVector) : String :=
  if humanProb fv < aiProb fv then "AI_GENERATED" else "HUMAN"

/-- The confidence before the final clamp: base probability plus the boost
(halved when fewer than 3 same-side indicators fired), capped at 0.95
resp. 0.90. -/
def rawConfidence (fv : FeatureVector) : ℚ :=
  if humanProb fv < aiProb fv then
    if 3 ≤ (aiIndicators fv).length then
      min 0.95 (aiProb fv + confidenceBoost fv)
    else
      min 0.90 (aiProb fv + confidenceBoost fv * 0.5)
  else
    if 3 ≤ (humanIndicators fv).length then
      min 0.95 (humanProb fv + confidenceBoost fv)
    else
      min 0.90 (humanProb fv + confidenceBoost fv * 0.5)

/-- The explanation string of the decision step. -/
def explanation (fv : FeatureVector) : String :=
  if humanProb fv < aiProb fv then
    if reasons fv ≠ [] then
      "AI-generated voice detected: " ++ String.intercalate ", " ((reasons fv).take 3)
    else
      "AI-generated voice patterns detected through spectral and pitch analysis"
  else
    "Natural human speech patterns detected with expected variations in pitch, energy, and spectral characteristics"

/-- Python's `round(q, 2)`: round to the nearest multiple of 1/100.  (Python's
`round` breaks exact half-cent ties to even after binary-float noise;
no value any claim touches is a half-cent tie, so nearest-rounding is the
faithful model there.) -/
def round2 (q : ℚ) : ℚ := (round (100 * q) : ℤ) / 100

/-- The source's `confidence = max(0.55, min(0.95, confidence))` then rounded to two
decimals: the value `_analyze_features` returns. -/
def confidence (fv : FeatureVector) : ℚ :=
  round2 (max 0.55 (min 0.95 (rawConfidence fv)))

/-- The embedding of `VoiceDetector._analyze_features(features, language)`: the
returned triple `(classification, round(confidence, 2), explanation)`.  The
`language` argument is accepted, as in the source, and never read. -/
def analyzeFeatures (fv : FeatureVector) (language : String) :
    String × ℚ × String :=
  (classification fv, confidence fv, explanation fv)


/-- Guarded division: `some (a / b)` when the denominator is nonzero, `none`
when a Python `a / b` would raise `ZeroDivisionError`. -/
def qdiv (a b : ℚ) : Option ℚ :=
  if b = 0 then none else some (a / b)

/-- The probability part of `_analyze_features` with every division it
performs replaced by `qdiv`, keeping the source's guards (`if total_weight
> 0`, `if norm > 0`) exactly where the source has them: the result is
`none` precisely when some division the source would execute divides by
zero. -/
def probsChecked (fv : FeatureVector) : Option (ℚ × ℚ) :=
  (if 0 < totalWeight fv then
     (qdiv (aiWeight fv) (totalWeight fv)).bind fun aiP =>
       (qdiv (humanWeight fv) (totalWeight fv)).bind fun humanP =>
         some (aiP, humanP)
   else some (0.4, 0.6)).bind fun p =>
    if 0 < aiWeight fv ∧ 0 < totalWeight fv then
      if 0 < min 1 (p.1 + 0.08) + p.2 then
        (qdiv (min 1 (p.1 + 0.08)) (min 1 (p.1 + 0.08) + p.2)).bind fun a2 =>
          (qdiv p.2 (min 1 (p.1 + 0.08) + p.2)).bind fun h2 =>
            some (a2, h2)
      else some (min 1 (p.1 + 0.08), p.2)
    else some p

/-- The whole of `_analyze_features` with checked divisions: `none` iff some
division the source executes would raise; otherwise the returned triple. -/
def analyzeFeaturesChecked (fv : FeatureVector) (language : String) :
    Option (String × ℚ × String) :=
  match probsChecked fv with
  | none => none
  | some (aiP, humanP) =>
    some
      (if humanP < aiP then "AI_GENERATED" else "HUMAN",
       round2 (max 0.55 (min 0.95
         (if humanP < aiP then
            if 3 ≤ (aiIndicators fv).length then
              min 0.95 (aiP + confidenceBoost fv)
            else
              min 0.90 (aiP + confidenceBoost fv * 0.5)
          else
            if 3 ≤ (humanIndicators fv).length then
              min 0.95 (humanP + confidenceBoost fv)
            else
              min 0.90 (humanP + confidenceBoost fv * 0.5)))),
       if humanP < aiP then
         if reasons fv ≠ [] then
           "AI-generated voice detected: " ++ String.intercalate ", " ((reasons fv).take 3)
         else
           "AI-generated voice patterns detected through spectral and pitch analysis"
       else
         "Natural human speech patterns detected with expected variations in pitch, energy, and spectral characteristics")

/-- The spec's all-AI scenario vector: pitch_std 10, mfcc_std mean 5.0,
mfcc_delta_std 2.0, spectral_centroid_std 400, spectral_bandwidth_std 300,
energy_std 0.005, zcr_std 0.005, spectral_rolloff_std 400; fields the
scenario leaves open are 0. -/
def fvAllAI : FeatureVector :=
  { pitch_mean := 0, pitch_std := 10, pitch_range := 0, pitch_max := 0,
    pitch_min := 0, pitch_cv := 0, mfcc_std := List.replicate 13 5,
    mfcc_delta_std := 2, spectral_centroid_std := 400,
    spectral_bandwidth_std := 300, spectral_contrast_std := 0,
    energy_std := 0.005, energy_cv := 0, zcr_std := 0.005,
    spectral_rolloff_std := 400 }

/-- The spec's all-HUMAN scenario vector: pitch_std 50, pitch_range 200,
mfcc_std mean 9.0, spectral_centroid_std 900, energy_std 0.02, zcr_std 0.02,
spectral_rolloff_std 700, spectral_bandwidth_std 500; the fields the
scenario leaves open are set outside every AI threshold (pitch_cv 0.5,
mfcc_delta_std 5, energy_cv 0.5) so that, as the scenario intends, only
HUMAN branches fire. -/
def fvAllHuman : FeatureVector :=
  { pitch_mean := 150, pitch_std := 50, pitch_range := 200, pitch_max := 250,
    pitch_min := 50, pitch_cv := 0.5, mfcc_std := List.replicate 13 9,
    mfcc_delta_std := 5, spectral_centroid_std := 900,
    spectral_bandwidth_std := 500, spectral_contrast_std := 0,
    energy_std := 0.02, energy_cv := 0.5, zcr_std := 0.02,
    spectral_rolloff_std := 700 }

/-- A vector on which no threshold test fires on either side: every field
sits in the dead zone of its row (pitch_std 27 ∈ [25,30], mfcc mean 6.75 ∈
[6.5,7], centroid 700 ∈ [600,800], energy_std 0.013 ∈ [0.012,0.015], zcr
0.013 ∈ [0.012,0.015], mfcc_delta 5 ≥ 4, bandwidth 500 ≥ 450, rolloff
650 ≥ 600, pitch_cv 0.5 ≥ 0.08, energy_cv 0.5 ≥ 0.18). -/
def fvNoFire : FeatureVector :=
  { pitch_mean := 150, pitch_std := 27, pitch_range := 100, pitch_max := 200,
    pitch_min := 100, pitch_cv := 0.5, mfcc_std := List.replicate 13 (27/4),
    mfcc_delta_std := 5, spectral_centroid_std := 700,
    spectral_bandwidth_std := 500, spectral_contrast_std := 0,
    energy_std := 0.013, energy_cv := 0.5, zcr_std := 0.013,
    spectral_rolloff_std := 650 }

/-- A vector on which exactly one AI test fires (row 8, rolloff 400 < 600)
and no HUMAN test fires: every other field is in its row's dead zone. -/
def fvOneAI : FeatureVector :=
  { fvNoFire with spectral_rolloff_std := 400 }

/-- A vector with all six pitch statistics 0 (the extractor's empty-pitch
default) whose remaining fields all favour HUMAN. -/
def fvZeroPitch : FeatureVector :=
  { pitch_mean := 0, pitch_std := 0, pitch_range := 0, pitch_max := 0,
    pitch_min := 0, pitch_cv := 0, mfcc_std := List.replicate 13 9,
    mfcc_delta_std := 5, spectral_centroid_std := 900,
    spectral_bandwidth_std := 500, spectral_contrast_std := 0,
    energy_std := 0.02, energy_cv := 0.5, zcr_std := 0.02,
    spectral_rolloff_std := 700 }

/-- Membership in a one-element conditional block resolves to its element. -/
lemma mem_ite_cons {α : Type} {c : Prop} [Decidable c] {x p : α}
    (h : p ∈ (if c then [x] else [])) : p = x := by
  by_cases hc : c
  · rw [if_pos hc] at h; simpa using h
  · rw [if_neg hc] at h; simp at h

/-- Every AI indicator the table can emit carries a positive weight. -/
lemma mem_aiIndicators_pos {fv : FeatureVector} {p : String × ℚ}
    (hp : p ∈ aiIndicators fv) : 0 < p.2 := by
  unfold aiIndicators at hp
  simp only [List.mem_append, or_assoc] at hp
  rcases hp with h|h|h|h|h|h|h|h <;> (rw [mem_ite_cons h]; norm_num)

/-- Every HUMAN indicator the table can emit carries a positive weight. -/
lemma mem_humanIndicators_pos {fv : FeatureVector} {p : String × ℚ}
    (hp : p ∈ humanIndicators fv) : 0 < p.2 := by
  unfold humanIndicators at hp
  simp only [List.mem_append, or_assoc] at hp
  rcases hp with h|h|h|h|h <;> (rw [mem_ite_cons h]; norm_num)

/-- The accumulated AI evidence is never negative. -/
lemma aiWeight_nonneg (fv : FeatureVector) : 0 ≤ aiWeight fv := by
  refine List.sum_nonneg ?_
  intro x hx
  obtain ⟨p, hp, rfl⟩ := List.mem_map.mp hx
  exact (mem_aiIndicators_pos hp).le

/-- The accumulated HUMAN evidence is never negative. -/
lemma humanWeight_nonneg (fv : FeatureVector) : 0 ≤ humanWeight fv := by
  refine List.sum_nonneg ?_
  intro x hx
  obtain ⟨p, hp, rfl⟩ := List.mem_map.mp hx
  exact (mem_humanIndicators_pos hp).le

/-- Every guarded division of the probability step succeeds: the checked
computation returns exactly the unchecked probabilities. -/
lemma probsChecked_eq (fv : FeatureVector) :
    probsChecked fv = some (aiProb fv, humanProb fv) := by
  by_cases ht : 0 < totalWeight fv
  · by_cases ha : 0 < aiWeight fv
    · have hfrac : 0 < aiWeight fv / totalWeight fv := div_pos ha ht
      have hh : 0 ≤ humanWeight fv / totalWeight fv :=
        div_nonneg (humanWeight_nonneg fv) ht.le
      have hnorm : 0 < min 1 (aiWeight fv / totalWeight fv + 0.08)
          + humanWeight fv / totalWeight fv := by
        have : 0 < min 1 (aiWeight fv / totalWeight fv + 0.08) :=
          lt_min (by norm_num) (by linarith)
        linarith
      simp [probsChecked, qdiv, aiProb, humanProb, biasedPair, aiProbRaw,
            humanProbRaw, ht, ha, ht.ne', hnorm, hnorm.ne']
    · simp [probsChecked, qdiv, aiProb, humanProb, biasedPair, aiProbRaw,
            humanProbRaw, ht, ha, ht.ne']
  · have ha : ¬ 0 < aiWeight fv := fun h =>
      ht (lt_of_lt_of_le h (le_add_of_nonneg_right (humanWeight_nonneg fv)))
    simp [probsChecked, qdiv, aiProb, humanProb, biasedPair, aiProbRaw,
          humanProbRaw, ht, ha]

/-- The fully checked classifier never hits an unguarded division: it agrees
with the unchecked embedding on every input. -/
lemma analyzeChecked_eq (fv : FeatureVector) (lang : String) :
    analyzeFeaturesChecked fv lang = some (analyzeFeatures fv lang) := by
  unfold analyzeFeaturesChecked
  rw [probsChecked_eq]
  rfl

/-- Rounding to two decimals keeps a value of [0.55, 0.95] inside
[0.55, 0.95] (the endpoints are themselves two-decimal values). -/
lemma round2_bounds {q : ℚ} (h1 : (0.55:ℚ) ≤ q) (h2 : q ≤ 0.95) :
    (0.55:ℚ) ≤ round2 q ∧ round2 q ≤ 0.95 := by
  unfold round2
  constructor
  · have h55 : (55:ℤ) ≤ round (100 * q) := by
      rw [round_eq]
      refine Int.le_floor.mpr ?_
      push_cast
      linarith
    rw [le_div_iff₀ (by norm_num : (0:ℚ) < 100)]
    calc (0.55:ℚ) * 100 = 55 := by norm_num
    _ ≤ ((round (100 * q) : ℤ) : ℚ) := by exact_mod_cast h55
  · have h95 : round (100 * q) ≤ 95 := by
      rw [round_eq]
      have := Int.floor_lt.mpr
        (by push_cast; linarith : (100 * q + 1 / 2 : ℚ) < ((96:ℤ):ℚ))
      omega
    rw [div_le_iff₀ (by norm_num : (0:ℚ) < 100)]
    calc ((round (100 * q) : ℤ) : ℚ) ≤ 95 := by exact_mod_cast h95
    _ = (0.95:ℚ) * 100 := by norm_num

/-- C1: for every well-formed FeatureVector, `_analyze_features` returns a
label that is either AI_GENERATED or HUMAN, and a confidence that, after
clamping and rounding to two decimals, lies in [0.55, 0.95] — in particular
it is never 0 and never 1. -/
theorem classify_range (fv : FeatureVector) (hWf : fv.Wf) (lang : String) :
    ((analyzeFeatures fv lang).1 = "AI_GENERATED" ∨
      (analyzeFeatures fv lang).1 = "HUMAN") ∧
    (0.55:ℚ) ≤ (analyzeFeatures fv lang).2.1 ∧
    (analyzeFeatures fv lang).2.1 ≤ 0.95 ∧
    (analyzeFeatures fv lang).2.1 ≠ 0 ∧
    (analyzeFeatures fv lang).2.1 ≠ 1 := by
  have hb := round2_bounds (q := max 0.55 (min 0.95 (rawConfidence fv)))
    (le_max_left _ _) (max_le (by norm_num) (min_le_left _ _))
  refine ⟨?_, hb.1, hb.2, ?_, ?_⟩
  · show (classification fv = _) ∨ (classification fv = _)
    unfold classification
    split_ifs <;> simp
  · intro h
    have hlo : (0.55:ℚ) ≤ (analyzeFeatures fv lang).2.1 := hb.1
    rw [h] at hlo
    norm_num at hlo
  · intro h
    have hhi : (analyzeFeatures fv lang).2.1 ≤ 0.95 := hb.2
    rw [h] at hhi
    norm_num at hhi

/-- Witness for C1 at the concrete all-AI scenario vector. -/
theorem classify_range_witness :
    FeatureVector.Wf fvAllAI ∧
    (((analyzeFeatures fvAllAI "en").1 = "AI_GENERATED" ∨
       (analyzeFeatures fvAllAI "en").1 = "HUMAN") ∧
     (0.55:ℚ) ≤ (analyzeFeatures fvAllAI "en").2.1 ∧
     (analyzeFeatures fvAllAI "en").2.1 ≤ 0.95 ∧
     (analyzeFeatures fvAllAI "en").2.1 ≠ 0 ∧
     (analyzeFeatures fvAllAI "en").2.1 ≠ 1) :=
  ⟨by with_unfolding_all decide,
   classify_range fvAllAI (by with_unfolding_all decide) "en"⟩

/-- C5: on the spec's all-AI scenario vector (pitch_std 10, mfcc_std mean
5.0, mfcc_delta_std 2.0, spectral_centroid_std 400, spectral_bandwidth_std
300, energy_std 0.005, zcr_std 0.005, spectral_rolloff_std 400) the
classifier returns AI_GENERATED with confidence 0.95 ≥ 0.90 and an
explanation carrying the first three recorded reasons in table order:
"unusually consistent pitch", "atypical MFCC patterns", "unnatural spectral
transitions". -/
theorem allAI_scenario :
    mfccStdMean fvAllAI = 5 ∧
    analyzeFeatures fvAllAI "en" =
      ("AI_GENERATED", 0.95,
       "AI-generated voice detected: unusually consistent pitch, atypical MFCC patterns, unnatural spectral transitions") ∧
    (0.90:ℚ) ≤ (analyzeFeatures fvAllAI "en").2.1 ∧
    (reasons fvAllAI).take 3 =
      ["unusually consistent pitch", "atypical MFCC patterns",
       "unnatural spectral transitions"] := by with_unfolding_all decide

/-- C6: on the spec's all-HUMAN scenario vector (pitch_std 50, pitch_range
200, mfcc_std mean 9.0, spectral_centroid_std 900, energy_std 0.02, zcr_std
0.02, spectral_rolloff_std 700, spectral_bandwidth_std 500) the classifier
returns HUMAN with confidence 0.95 ≥ 0.85 and the fixed human explanation
string. -/
theorem allHuman_scenario :
    mfccStdMean fvAllHuman = 9 ∧
    analyzeFeatures fvAllHuman "en" =
      ("HUMAN", 0.95,
       "Natural human speech patterns detected with expected variations in pitch, energy, and spectral characteristics") ∧
    (0.85:ℚ) ≤ (analyzeFeatures fvAllHuman "en").2.1 := by
  with_unfolding_all decide

/-- C10: the result of `_analyze_features` is independent of the `language`
argument — identical triples for any two language strings on the same
FeatureVector, since the parameter is never read. -/
theorem language_independent (fv : FeatureVector) (l1 l2 : String) :
    analyzeFeatures fv l1 = analyzeFeatures fv l2 := rfl


/-- C2: on every FeatureVector whose six pitch statistics are all 0 the
classifier completes with no division error (every guarded division
succeeds), and pitch_cv = 0 fails the `0 < pitch_cv < 0.08` test, so the
zero pitch fields do not by themselves force AI_GENERATED: a zero-pitch
vector classified HUMAN exists. -/
theorem zeroPitch_safe :
    (∀ (fv : FeatureVector) (lang : String),
      fv.pitch_mean = 0 → fv.pitch_std = 0 → fv.pitch_range = 0 →
      fv.pitch_max = 0 → fv.pitch_min = 0 → fv.pitch_cv = 0 →
      analyzeFeaturesChecked fv lang = some (analyzeFeatures fv lang) ∧
      ¬ (0 < fv.pitch_cv ∧ fv.pitch_cv < 0.08)) ∧
    (∃ fv : FeatureVector, fv.pitch_mean = 0 ∧ fv.pitch_std = 0 ∧
      fv.pitch_range = 0 ∧ fv.pitch_max = 0 ∧ fv.pitch_min = 0 ∧
      fv.pitch_cv = 0 ∧ classification fv = "HUMAN") := by
  constructor
  · intro fv lang _ _ _ _ _ hcv
    refine ⟨analyzeChecked_eq fv lang, ?_⟩
    rw [hcv]
    norm_num
  · exact ⟨fvZeroPitch, rfl, rfl, rfl, rfl, rfl, rfl, by with_unfolding_all decide⟩

/-- Witness for C2 at the concrete zero-pitch vector. -/
theorem zeroPitch_safe_witness :
    analyzeFeaturesChecked fvZeroPitch "en" = some (analyzeFeatures fvZeroPitch "en") ∧
    ¬ (0 < fvZeroPitch.pitch_cv ∧ fvZeroPitch.pitch_cv < 0.08) :=
  zeroPitch_safe.1 fvZeroPitch "en" rfl rfl rfl rfl rfl rfl

/-- Counterexample to C3 as stated: on a vector where no threshold test
fires on either side the classifier does return HUMAN, but with confidence
exactly 0.60 — not in the claimed 0.68–0.70 band. -/
theorem noFire_counterexample :
    aiIndicators fvNoFire = [] ∧ humanIndicators fvNoFire = [] ∧
    analyzeFeatures fvNoFire "en" =
      ("HUMAN", 0.60,
       "Natural human speech patterns detected with expected variations in pitch, energy, and spectral characteristics") ∧
    ¬ ((0.68:ℚ) ≤ (analyzeFeatures fvNoFire "en").2.1 ∧
       (analyzeFeatures fvNoFire "en").2.1 ≤ 0.70) := by
  with_unfolding_all decide

/-- C3 (amended): for every FeatureVector on which no threshold test fires
on either side, the classifier returns HUMAN with confidence exactly 0.60
(the 0.6 default prior with confidence_boost = 0, since ai_prob 0.4 <
human_prob 0.6) and the fixed human explanation string. -/
theorem noFire_yields_human (fv : FeatureVector) (lang : String)
    (hA : aiIndicators fv = []) (hH : humanIndicators fv = []) :
    analyzeFeatures fv lang =
      ("HUMAN", 0.60,
       "Natural human speech patterns detected with expected variations in pitch, energy, and spectral characteristics") := by
  have haw : aiWeight fv = 0 := by simp [aiWeight, hA]
  have hhw : humanWeight fv = 0 := by simp [humanWeight, hH]
  have ht : totalWeight fv = 0 := by simp [totalWeight, haw, hhw]
  have hbp : biasedPair fv = (0.4, 0.6) := by
    unfold biasedPair
    rw [if_neg (by rw [haw]; simp : ¬ (0 < aiWeight fv ∧ 0 < totalWeight fv))]
    unfold aiProbRaw humanProbRaw
    rw [ht]
    norm_num
  have hai : aiProb fv = 0.4 := by rw [aiProb, hbp]
  have hhp : humanProb fv = 0.6 := by rw [humanProb, hbp]
  have hcls : classification fv = "HUMAN" := by
    unfold classification
    rw [hai, hhp]
    norm_num
  have hboost : confidenceBoost fv = 0 := by
    unfold confidenceBoost indicatorCount
    rw [hA, hH]
    norm_num
  have hraw : rawConfidence fv = 0.6 := by
    unfold rawConfidence
    rw [hai, hhp, hboost, hH]
    norm_num
  have hconf : confidence fv = 0.60 := by
    unfold confidence
    rw [hraw]
    with_unfolding_all decide
  have hexp : explanation fv =
      "Natural human speech patterns detected with expected variations in pitch, energy, and spectral characteristics" := by
    unfold explanation
    rw [hai, hhp]
    norm_num
  show (classification fv, confidence fv, explanation fv) = _
  rw [hcls, hconf, hexp]

/-- Witness for the amended C3 at the concrete no-fire vector. -/
theorem noFire_yields_human_witness :
    aiIndicators fvNoFire = [] ∧ humanIndicators fvNoFire = [] ∧
    analyzeFeatures fvNoFire "en" =
      ("HUMAN", 0.60,
       "Natural human speech patterns detected with expected variations in pitch, energy, and spectral characteristics") :=
  ⟨by with_unfolding_all decide, by with_unfolding_all decide,
   noFire_yields_human fvNoFire "en" (by with_unfolding_all decide)
     (by with_unfolding_all decide)⟩

/-- C7: the classifier is total over well-formed FeatureVectors — the
embedding with every division checked returns `some` of the unchecked
result on every input, i.e. each division the source performs is guarded by
a zero-check that holds. -/
theorem classify_total (fv : FeatureVector) (hWf : fv.Wf) (lang : String) :
    analyzeFeaturesChecked fv lang = some (analyzeFeatures fv lang) :=
  analyzeChecked_eq fv lang

/-- Witness for C7 at the concrete all-HUMAN scenario vector. -/
theorem classify_total_witness :
    FeatureVector.Wf fvAllHuman ∧
    analyzeFeaturesChecked fvAllHuman "en" = some (analyzeFeatures fvAllHuman "en") :=
  ⟨by with_unfolding_all decide,
   classify_total fvAllHuman (by with_unfolding_all decide) "en"⟩

/-- C4: the aggregation step. When some test fired (total weight > 0) the
raw probabilities are the weight ratios; when no test fired they default to
0.4 / 0.6; and when there is AI evidence (ai_weight > 0, total > 0) the
biased `min(1, ai_prob + 0.08)` pair is renormalised by its sum, after
which the two probabilities sum to exactly 1. -/
theorem aggregation_formulas (fv : FeatureVector) :
    (0 < totalWeight fv →
        aiProbRaw fv = aiWeight fv / totalWeight fv ∧
        humanProbRaw fv = humanWeight fv / totalWeight fv) ∧
    (aiIndicators fv = [] → humanIndicators fv = [] →
        aiProbRaw fv = 0.4 ∧ humanProbRaw fv = 0.6) ∧
    (0 < aiWeight fv → 0 < totalWeight fv →
        aiProb fv = min 1 (aiProbRaw fv + 0.08) /
          (min 1 (aiProbRaw fv + 0.08) + humanProbRaw fv) ∧
        humanProb fv = humanProbRaw fv /
          (min 1 (aiProbRaw fv + 0.08) + humanProbRaw fv) ∧
        aiProb fv + humanProb fv = 1) := by
  refine ⟨?_, ?_, ?_⟩
  · intro ht
    unfold aiProbRaw humanProbRaw
    rw [if_pos ht, if_pos ht]
    exact ⟨rfl, rfl⟩
  · intro hA hH
    have ht : totalWeight fv = 0 := by
      simp [totalWeight, aiWeight, humanWeight, hA, hH]
    unfold aiProbRaw humanProbRaw
    rw [ht]
    norm_num
  · intro ha ht
    have haR : aiProbRaw fv = aiWeight fv / totalWeight fv := by
      unfold aiProbRaw; rw [if_pos ht]
    have hhR : humanProbRaw fv = humanWeight fv / totalWeight fv := by
      unfold humanProbRaw; rw [if_pos ht]
    have hfrac : 0 < aiProbRaw fv := by rw [haR]; exact div_pos ha ht
    have hh : 0 ≤ humanProbRaw fv := by
      rw [hhR]; exact div_nonneg (humanWeight_nonneg fv) ht.le
    have hmin : 0 < min 1 (aiProbRaw fv + 0.08) :=
      lt_min (by norm_num) (by linarith)
    have hnorm : 0 < min 1 (aiProbRaw fv + 0.08) + humanProbRaw fv := by
      linarith
    have hbp : biasedPair fv =
        (min 1 (aiProbRaw fv + 0.08) /
           (min 1 (aiProbRaw fv + 0.08) + humanProbRaw fv),
         humanProbRaw fv /
           (min 1 (aiProbRaw fv + 0.08) + humanProbRaw fv)) := by
      unfold biasedPair
      rw [if_pos ⟨ha, ht⟩, if_pos hnorm]
    refine ⟨by rw [aiProb, hbp], by rw [humanProb, hbp], ?_⟩
    rw [aiProb, humanProb, hbp]
    show _ / _ + _ / _ = 1
    rw [div_add_div_same, div_self hnorm.ne']

/-- Witness for C4: the fired branch at the all-AI vector, the default
branch at the no-fire vector, and the renormalised sum equals 1. -/
theorem aggregation_formulas_witness :
    (0 < totalWeight fvAllAI ∧
       aiProbRaw fvAllAI = aiWeight fvAllAI / totalWeight fvAllAI) ∧
    (aiIndicators fvNoFire = [] ∧ humanIndicators fvNoFire = [] ∧
       aiProbRaw fvNoFire = 0.4 ∧ humanProbRaw fvNoFire = 0.6) ∧
    (0 < aiWeight fvAllAI ∧ aiProb fvAllAI + humanProb fvAllAI = 1) := by
  refine ⟨⟨by with_unfolding_all decide, ?_⟩,
          ⟨by with_unfolding_all decide, by with_unfolding_all decide, ?_, ?_⟩,
          ⟨by with_unfolding_all decide, ?_⟩⟩
  · exact ((aggregation_formulas fvAllAI).1 (by with_unfolding_all decide)).1
  · exact ((aggregation_formulas fvNoFire).2.1 (by with_unfolding_all decide)
      (by with_unfolding_all decide)).1
  · exact ((aggregation_formulas fvNoFire).2.1 (by with_unfolding_all decide)
      (by with_unfolding_all decide)).2
  · exact ((aggregation_formulas fvAllAI).2.2 (by with_unfolding_all decide)
      (by with_unfolding_all decide)).2.2

/-- C9: whenever exactly one AI-side test fires and no HUMAN-side test
fires, the classifier returns AI_GENERATED with confidence exactly 0.90:
ai_prob normalises to 1, the bias keeps it at 1, and with fewer than 3 AI
indicators the confidence is `min(0.90, 1 + 0.03/2) = 0.90`. -/
theorem singleAI_confidence (fv : FeatureVector) (lang : String)
    (hA : (aiIndicators fv).length = 1) (hH : humanIndicators fv = []) :
    (analyzeFeatures fv lang).1 = "AI_GENERATED" ∧
    (analyzeFeatures fv lang).2.1 = 0.90 := by
  obtain ⟨p, hp⟩ := List.length_eq_one.mp hA
  have hpos : 0 < p.2 :=
    mem_aiIndicators_pos (by rw [hp]; exact List.mem_singleton_self p)
  have haw : aiWeight fv = p.2 := by simp [aiWeight, hp]
  have hhw : humanWeight fv = 0 := by simp [humanWeight, hH]
  have ht : totalWeight fv = p.2 := by simp [totalWeight, haw, hhw]
  have htpos : 0 < totalWeight fv := ht ▸ hpos
  have hapos : 0 < aiWeight fv := haw ▸ hpos
  have hR : aiProbRaw fv = 1 := by
    unfold aiProbRaw
    rw [if_pos htpos, haw, ht]
    exact div_self hpos.ne'
  have hH2 : humanProbRaw fv = 0 := by
    unfold humanProbRaw
    rw [if_pos htpos, hhw]
    exact zero_div _
  have hbp : biasedPair fv = (1, 0) := by
    unfold biasedPair
    rw [if_pos ⟨hapos, htpos⟩, hR, hH2]
    norm_num
  have hai : aiProb fv = 1 := by rw [aiProb, hbp]
  have hhp : humanProb fv = 0 := by rw [humanProb, hbp]
  have hboost : confidenceBoost fv = 0.03 := by
    unfold confidenceBoost indicatorCount
    rw [hA, hH]
    norm_num
  constructor
  · show classification fv = _
    unfold classification
    rw [hai, hhp]
    norm_num
  · show confidence fv = _
    have hraw : rawConfidence fv = 0.90 := by
      unfold rawConfidence
      rw [hai, hhp, hboost, hA]
      norm_num [min_def]
    unfold confidence
    rw [hraw]
    with_unfolding_all decide

/-- Witness for C9 at the concrete single-indicator vector. -/
theorem singleAI_confidence_witness :
    (aiIndicators fvOneAI).length = 1 ∧ humanIndicators fvOneAI = [] ∧
    (analyzeFeatures fvOneAI "en").1 = "AI_GENERATED" ∧
    (analyzeFeatures fvOneAI "en").2.1 = 0.90 := by
  refine ⟨by with_unfolding_all decide, by with_unfolding_all decide, ?_⟩
  exact singleAI_confidence fvOneAI "en" (by with_unfolding_all decide)
    (by with_unfolding_all decide)

end VoiceDetector
